import Mathlib

/-!
Verification development for the ktree terminal Kubernetes browser.

The definitions below are a shallow embedding of the Python source:
  - src/ktree/widgets/column.py  (BrowserColumn and its option list)
  - src/ktree/app.py             (KTreeApp cascade orchestrator)
  - src/ktree/k8s_manager.py     (K8sManager.get_object_types / get_objects)

Python strings become Lean String, optional values become Option,
the Textual OptionList display state is carried explicitly
(display / disabled / highlighted), background workers become a
list of pending fetch descriptors, and fallible external calls
become Except values supplied by an abstract cluster model.
-/

namespace KTree

/-- Boolean test that the first character list is a prefix of the second
(the building block for Python substring membership x in y). -/
def isPrefixList : List Char → List Char → Bool
  | [], _ => true
  | _ :: _, [] => false
  | a :: as, b :: bs => a == b && isPrefixList as bs

/-- Boolean substring containment on character lists, mirroring the
semantics of the Python expression needle in haystack. -/
def containsSub (needle : List Char) : List Char → Bool
  | [] => needle.isEmpty
  | c :: t => isPrefixList needle (c :: t) || containsSub needle t

/-- Substring containment on strings: the Python expression
needle in haystack used by the column filter code. -/
def strContains (needle haystack : String) : Bool :=
  containsSub needle.data haystack.data

/-- Python truthiness of an optional string: None and the empty string
are falsy, every other string is truthy. -/
def optTruthy : Option String → Bool
  | some s => !s.isEmpty
  | none => false

/-- Rendering of an optional string inside a Python f-string:
None prints as the literal text None. -/
def optStr : Option String → String
  | some s => s
  | none => "None"

/-- Character-wise lowercase conversion, the model of the Python
str.lower method used by the filter code (defined on the character
list so that it evaluates by kernel reduction). -/
def strToLower (s : String) : String :=
  String.mk (s.data.map Char.toLower)

/-- The list comprehension in BrowserColumn.set_items and
on_input_submitted: keep the items whose lowercasing contains the
(already lowercased) filter term. -/
def applyFilterTerm (term : String) (items : List String) : List String :=
  items.filter (fun it => strContains term (strToLower it))

/-- State of one BrowserColumn widget (src/ktree/widgets/column.py)
together with the observable state of its embedded option list:
display is the list of option prompts currently shown, disabled and
highlighted mirror the option list attributes of the same names. -/
structure Column where
  items : List String
  filtered_items : List String
  is_filtered : Bool
  filter_term : String
  search_active : Bool
  is_loading : Bool
  display : List String
  disabled : Bool
  highlighted : Option Nat
deriving Repr, DecidableEq

/-- A freshly constructed BrowserColumn (the widget constructor plus an
empty option list). -/
def Column.init : Column :=
  { items := [], filtered_items := [], is_filtered := false, filter_term := "",
    search_active := false, is_loading := false, display := [], disabled := false,
    highlighted := none }

/-- The filtered list that BrowserColumn.set_items computes for a new
item list: re-apply the stored filter term when a filter is active
(Python: if self.is_filtered and self._filter_term), else all items. -/
def Column.computeFiltered (c : Column) (new_items : List String) : List String :=
  if c.is_filtered && !c.filter_term.isEmpty then
    applyFilterTerm c.filter_term new_items
  else new_items

/-- BrowserColumn.set_items: store the items, clear loading, recompute
filtered_items, rebuild the option list (placeholder row and disabling
when empty), and highlight index 0 when the filtered list is non-empty. -/
def Column.set_items (c : Column) (new_items : List String) : Column :=
  match c.computeFiltered new_items with
  | [] =>
    { c with
      items := new_items
      is_loading := false
      filtered_items := []
      display := ["No items"]
      disabled := true
      highlighted := none }
  | x :: xs =>
    { c with
      items := new_items
      is_loading := false
      filtered_items := x :: xs
      display := x :: xs
      disabled := false
      highlighted := some 0 }

/-- Condition under which BrowserColumn.set_items schedules the deferred
post_selection callback via call_later: the freshly computed filtered
list is non-empty (then the list is enabled and highlighted). -/
def Column.set_items_posts (c : Column) (new_items : List String) : Bool :=
  !(c.computeFiltered new_items).isEmpty

/-- The deferred post_selection callback scheduled by set_items, evaluated
against the column state at fire time: it posts Selected for the current
first filtered item when the list is still populated, enabled and
highlighted, and otherwise does nothing. -/
def Column.post_selection (c : Column) : Option String :=
  match c.filtered_items with
  | [] => none
  | x :: _ =>
    if !c.disabled && c.highlighted.isSome then some x else none

/-- BrowserColumn._update_list: rebuild the option list from
filtered_items, showing the placeholder and disabling when empty,
otherwise enabling and highlighting index 0. -/
def Column.updateList (c : Column) : Column :=
  match c.filtered_items with
  | [] => { c with display := ["No items"], disabled := true, highlighted := none }
  | _ :: _ =>
    { c with
      display := c.filtered_items
      disabled := false
      highlighted := some 0 }

/-- BrowserColumn.on_input_submitted: lowercase and store the submitted
term; a non-empty term filters items and marks the column filtered, an
empty term restores all items; then the option list is rebuilt. -/
def Column.on_input_submitted (c : Column) (value : String) : Column :=
  let term := strToLower value
  if term.isEmpty then
    Column.updateList
      { c with filter_term := "", filtered_items := c.items, is_filtered := false }
  else
    Column.updateList
      { c with
        filter_term := term
        filtered_items := applyFilterTerm term c.items
        is_filtered := true }

/-- BrowserColumn.action_toggle_search: hiding an active search restores
the full item list and clears the filtered flag (the stored term is kept);
showing the search only flips the flag. -/
def Column.action_toggle_search (c : Column) : Column :=
  if c.search_active then
    Column.updateList
      { c with search_active := false, filtered_items := c.items, is_filtered := false }
  else
    { c with search_active := true }

/-- BrowserColumn.on_key for the escape key while searching: cancel the
search, restore the full list and clear the stored filter term. -/
def Column.escape_key (c : Column) : Column :=
  if c.search_active then
    Column.updateList
      { c with
        search_active := false
        filtered_items := c.items
        is_filtered := false
        filter_term := "" }
  else c

/-- BrowserColumn.set_loading: entering the loading state clears the
option list, shows the loading placeholder and disables the list;
leaving it clears and re-enables the list. -/
def Column.set_loading (c : Column) (loading : Bool) : Column :=
  if loading then
    { c with
      is_loading := true
      display := ["Loading data..."]
      disabled := true
      highlighted := none }
  else
    { c with
      is_loading := false
      display := []
      disabled := false
      highlighted := none }

/-- Model of the option list cursor action invoked by the app on
arrow-down (OptionList.action_cursor_down): advance the highlight by one
within the displayed options, clamped at the end. -/
def Column.cursor_down (c : Column) : Column :=
  match c.highlighted with
  | some i =>
    if i + 1 < c.display.length then { c with highlighted := some (i + 1) } else c
  | none =>
    if c.display.isEmpty then c else { c with highlighted := some 0 }

/-- BrowserColumn.on_option_list_option_selected: post Selected for the
option prompt unless it is one of the two placeholder rows. The result
is the posted item, or none when nothing is posted. -/
def Column.on_selected_event (c : Column) (prompt : String) : Option String :=
  if prompt = "Loading data..." ∨ prompt = "No items" then none else some prompt

/-- BrowserColumn.on_option_list_option_highlighted: ignore the event when
the option list is disabled or the prompt is a placeholder row, otherwise
post Selected for the prompt. -/
def Column.on_highlighted_event (c : Column) (prompt : String) : Option String :=
  if c.disabled then none
  else if prompt = "Loading data..." ∨ prompt = "No items" then none
  else some prompt

/-- Operations a column can undergo (its public entry points in
column.py plus the cursor action of the embedded option list). -/
inductive ColOp where
  | setItems (items : List String)
  | submitFilter (value : String)
  | toggleSearch
  | escapeKey
  | setLoading (b : Bool)
  | cursorDown
deriving Repr, DecidableEq

/-- Apply one operation to a column. Filter submission only reaches the
column while its search input is shown (search_active), matching the
widget focus discipline of the source. -/
def ColOp.apply (c : Column) : ColOp → Column
  | .setItems items => c.set_items items
  | .submitFilter v => if c.search_active then c.on_input_submitted v else c
  | .toggleSearch => c.action_toggle_search
  | .escapeKey => c.escape_key
  | .setLoading b => c.set_loading b
  | .cursorDown => c.cursor_down

/-- Run a sequence of operations from the freshly constructed column. -/
def runOps (ops : List ColOp) : Column :=
  ops.foldl (fun c op => op.apply c) Column.init

/-- The operations covered by the filter-panel invariant claim:
set_items and the filter operations (submit, toggle, escape). -/
def ColOp.isFilterOp : ColOp → Bool
  | .setItems _ => true
  | .submitFilter _ => true
  | .toggleSearch => true
  | .escapeKey => true
  | .setLoading _ => false
  | .cursorDown => false

/-- The detail view modes of the app (self.current_view, a string in the
source restricted to these three values). -/
inductive View where
  | describe
  | logs
  | execView
deriving Repr, DecidableEq

/-- A background fetch spawned by run_worker, recorded with the arguments
captured at spawn time; completion handlers are modelled separately. -/
inductive Fetch where
  | fetchTypes (ns : String)
  | fetchObjectsSel (ns ty : String)
  | fetchObjectsInit (ns ty : String)
  | fetchDescribe (ns ty name : String)
  | refreshObjects (ns ty : String)
  | refreshTypes (ns : String)
  | refreshNamespaces
deriving Repr, DecidableEq

/-- State of the KTreeApp orchestrator (src/ktree/app.py) after a
successful Kubernetes connection: the Selection Context fields, the
three browser columns, the detail panel content and title flag, and
the list of spawned, not yet completed background fetches. -/
structure AppState where
  current_namespace : Option String
  current_object_type : Option String
  current_pod_name : Option String
  describe_content : Option String
  current_view : View
  initial_type : Option String
  col_ns : Column
  col_types : Column
  col_objects : Column
  detail_content : String
  detail_is_pod : Bool
  pending : List Fetch
deriving Repr, DecidableEq

/-- The app state right after construction and composition, before any
data is loaded. -/
def AppState.init : AppState :=
  { current_namespace := none, current_object_type := none,
    current_pod_name := none, describe_content := none,
    current_view := .describe, initial_type := none,
    col_ns := Column.init, col_types := Column.init, col_objects := Column.init,
    detail_content := "Select an object to view details...",
    detail_is_pod := false, pending := [] }

/-- Identifier of the column that posted a Selected message. -/
inductive ColumnId where
  | colNs
  | colTypes
  | colObjects
deriving Repr, DecidableEq

/-- The col-ns branch of on_browser_column_selected: record the new
namespace, put the Type column into loading, show a loading message,
clear the Object column via set_items([]), clear current_object_type,
describe_content, reset the view and title, and spawn the type-list
fetch. The current_pod_name field is not touched by this branch. -/
def selectNamespace (st : AppState) (item : String) : AppState :=
  { st with
    current_namespace := some item
    col_types := st.col_types.set_loading true
    detail_content := "Loading object types for namespace: " ++ item ++ "..."
    col_objects := st.col_objects.set_items []
    current_object_type := none
    describe_content := none
    current_view := .describe
    detail_is_pod := false
    pending := st.pending ++ [Fetch.fetchTypes item] }

/-- The col-types branch of on_browser_column_selected: guarded by a
truthy current_namespace, it records the selected type, clears the
describe cache, resets the view, updates the detail title and loading
message, puts the Object column into loading, and spawns the object-list
fetch with the namespace captured at spawn time. -/
def selectType (st : AppState) (item : String) : AppState :=
  if optTruthy st.current_namespace then
    { st with
      current_object_type := some item
      describe_content := none
      current_view := .describe
      detail_is_pod := item = "Pods"
      detail_content :=
        "Loading " ++ item ++ " in namespace: " ++ optStr st.current_namespace ++ "..."
      col_objects := st.col_objects.set_loading true
      pending := st.pending ++
        [Fetch.fetchObjectsSel (optStr st.current_namespace) item] }
  else st

/-- The col-objects branch of on_browser_column_selected: guarded by
truthy current_namespace and current_object_type, it stores the pod name
when the type is Pods (and clears it otherwise), updates the detail
title and loading message, and spawns the describe fetch. -/
def selectObject (st : AppState) (item : String) : AppState :=
  if optTruthy st.current_namespace && optTruthy st.current_object_type then
    { st with
      current_pod_name :=
        if st.current_object_type = some "Pods" then some item else none
      detail_is_pod := st.current_object_type = some "Pods"
      detail_content :=
        "Loading details for " ++ optStr st.current_object_type ++ "/" ++ item ++ "..."
      pending := st.pending ++
        [Fetch.fetchDescribe (optStr st.current_namespace)
          (optStr st.current_object_type) item] }
  else st

/-- Dispatch of a Selected message to the branch for the posting column
(on_browser_column_selected). -/
def on_browser_column_selected (st : AppState) (col : ColumnId) (item : String) :
    AppState :=
  match col with
  | .colNs => selectNamespace st item
  | .colTypes => selectType st item
  | .colObjects => selectObject st item

/-- The _on_object_types_loaded completion handler: it applies the
arrived type list to the Type column unconditionally; when an initial
type was requested and is present, it additionally highlights it,
records it as current_object_type, puts the Object column into loading
and spawns the object-list fetch (the _load_objects_for_type helper). -/
def onObjectTypesLoaded (st : AppState) (ns : String) (object_types : List String) :
    AppState :=
  let ct := st.col_types.set_items object_types
  match st.initial_type with
  | some ty =>
    if object_types.contains ty then
      { st with
        col_types := { ct with highlighted := some (object_types.indexOf ty) }
        current_object_type := some ty
        col_objects := st.col_objects.set_loading true
        pending := st.pending ++ [Fetch.fetchObjectsInit ns ty] }
    else { st with col_types := ct }
  | none => { st with col_types := ct }

/-- The _on_object_types_error completion handler. -/
def onObjectTypesError (st : AppState) : AppState :=
  { st with detail_content := "Error loading object types" }

/-- The _on_objects_loaded completion handler (initial-type path): it
applies the arrived object list to the Object column unconditionally,
ignoring the originating namespace and type arguments. -/
def onObjectsLoaded (st : AppState) (ns ty : String) (objects : List String) :
    AppState :=
  { st with col_objects := st.col_objects.set_items objects }

/-- The _on_objects_loaded_from_selection completion handler: a non-empty
result populates the Object column; an empty result sets the Object
column to its empty state and shows a message naming the type and the
current namespace in the detail panel. -/
def onObjectsLoadedFromSelection (st : AppState) (object_type : String)
    (objects : List String) : AppState :=
  match objects with
  | _ :: _ => { st with col_objects := st.col_objects.set_items objects }
  | [] =>
    { st with
      col_objects := st.col_objects.set_items []
      detail_content :=
        "No " ++ object_type ++ " found in namespace: " ++ optStr st.current_namespace }

/-- The _on_objects_error_from_selection completion handler. -/
def onObjectsErrorFromSelection (st : AppState) (object_type : String) : AppState :=
  { st with
    col_objects := st.col_objects.set_items []
    detail_content :=
      "Error loading " ++ object_type ++ " in namespace: " ++ optStr st.current_namespace }

/-- The _on_details_loaded completion handler. -/
def onDetailsLoaded (st : AppState) (object_type item yaml_details : String) :
    AppState :=
  { st with
    describe_content := some yaml_details
    current_view := .describe
    detail_content := yaml_details }

/-- The _on_details_error completion handler: it only replaces the detail
panel content with a message naming the type and the item. -/
def onDetailsError (st : AppState) (object_type item : String) : AppState :=
  { st with detail_content := "Error loading details for " ++ object_type ++ "/" ++ item }

/-- The _on_objects_refreshed completion handler. -/
def onObjectsRefreshed (st : AppState) (objects : List String) : AppState :=
  { st with col_objects := st.col_objects.set_items objects }

/-- The _on_object_types_refreshed completion handler. -/
def onObjectTypesRefreshed (st : AppState) (object_types : List String) : AppState :=
  { st with col_types := st.col_types.set_items object_types }

/-- The _on_namespaces_refreshed completion handler. -/
def onNamespacesRefreshed (st : AppState) (namespaces : List String) : AppState :=
  { st with col_ns := st.col_ns.set_items namespaces }

/-- The action_refresh handler: re-issue the fetch for the deepest
currently-selected level, putting only that column into loading. -/
def action_refresh (st : AppState) : AppState :=
  if optTruthy st.current_namespace && optTruthy st.current_object_type then
    { st with
      col_objects := st.col_objects.set_loading true
      pending := st.pending ++
        [Fetch.refreshObjects (optStr st.current_namespace)
          (optStr st.current_object_type)] }
  else if optTruthy st.current_namespace then
    { st with
      col_types := st.col_types.set_loading true
      pending := st.pending ++ [Fetch.refreshTypes (optStr st.current_namespace)] }
  else
    { st with
      col_ns := st.col_ns.set_loading true
      pending := st.pending ++ [Fetch.refreshNamespaces] }

/-- The action_focus_down handler when the Objects column is focused:
it invokes the cursor action of that column's option list (the deferred
selection trigger it also schedules is modelled separately). -/
def action_focus_down_on_objects (st : AppState) : AppState :=
  { st with col_objects := st.col_objects.cursor_down }

/-- Insertion of a string into a sorted list, placing it before the first
element it does not exceed (this keeps the sort stable). -/
def insertSorted (x : String) : List String → List String
  | [] => [x]
  | y :: ys => if x ≤ y then x :: y :: ys else y :: insertSorted x ys

/-- Ascending stable sort on strings, the model of the Python builtin
sorted applied to a list of strings. -/
def sortStrings : List String → List String
  | [] => []
  | x :: xs => insertSorted x (sortStrings xs)

/-- One entry of a custom resource definition version list
(crd.spec.versions in the source). -/
structure CRDVersion where
  name : String
  served : Bool
deriving Repr, DecidableEq

/-- The parts of a custom resource definition the manager reads:
kind is optional because the source checks its truthiness before use,
legacyVersion models crd.spec.version of the legacy format, and
versions models the crd.spec.versions list of the new format. -/
structure CRD where
  kind : Option String
  group : String
  legacyVersion : Option String
  versions : List CRDVersion
  plural : String
deriving Repr, DecidableEq

/-- Abstract cluster seen by K8sManager after a successful _load_config:
crds is the outcome of list_custom_resource_definition, listBuiltin maps
a mapped kind and a namespace to the names returned by the corresponding
typed list call, and listCustom is list_namespaced_custom_object keyed by
group, version, namespace and plural (its names may contain the empty
string for items lacking a metadata name). Errors model raised
exceptions from the underlying client calls. -/
structure Cluster where
  crds : Except String (List CRD)
  listBuiltin : String → String → Except String (List String)
  listCustom : String → String → String → String → Except String (List String)

/-- The fixed list of standard kinds at the top of
K8sManager.get_object_types, in source order. -/
def standard_types : List String :=
  ["Pods", "Services", "Deployments", "ReplicaSets", "StatefulSets",
   "DaemonSets", "Jobs", "CronJobs", "ConfigMaps", "Secrets",
   "PersistentVolumes", "PersistentVolumeClaims", "Ingresses",
   "ServiceAccounts", "Roles", "RoleBindings", "ClusterRoles",
   "ClusterRoleBindings"]

/-- The kinds discovered from the cluster by get_object_types: the kind
of every CRD whose spec, names and kind are all truthy; a failed CRD
listing yields no kinds (the source logs and continues). -/
def discovered_kinds (crdResult : Except String (List CRD)) : List String :=
  match crdResult with
  | .ok crds => crds.filterMap (fun crd => if optTruthy crd.kind then crd.kind else none)
  | .error _ => []

/-- K8sManager.get_object_types: the fixed standard kinds followed by the
sorted discovered custom kinds; no code path raises. -/
def get_object_types (crdResult : Except String (List CRD)) : List String :=
  standard_types ++ sortStrings (discovered_kinds crdResult)

/-- The keys of the type_mapping dictionary in K8sManager.get_objects.
After a successful _load_config every API client is set, so no entry of
the mapping is dropped by the None guards. -/
def mapped_kinds : List String :=
  ["Pods", "Services", "ConfigMaps", "Secrets", "ServiceAccounts",
   "PersistentVolumeClaims", "Deployments", "ReplicaSets", "StatefulSets",
   "DaemonSets", "Jobs", "CronJobs", "Ingresses", "Roles", "RoleBindings"]

/-- The loop over crds.items in the CRD fallback of get_objects: the
first CRD whose kind equals the requested type is handled, the loop
breaks after it. -/
def findCrd (crds : List CRD) (object_type : String) : Option CRD :=
  crds.find? (fun crd => crd.kind == some object_type)

/-- The loop over a new-format CRD version list in get_objects: the first
served version whose custom-object listing succeeds yields the sorted
non-empty names; exceptions are swallowed and the loop continues; if no
served version succeeds the result is empty. -/
def servedVersionsLoop (c : Cluster) (crd : CRD) (ns : String) :
    List CRDVersion → List String
  | [] => []
  | v :: rest =>
    if v.served then
      match c.listCustom crd.group v.name ns crd.plural with
      | .ok names => sortStrings (names.filter (fun n => !n.isEmpty))
      | .error _ => servedVersionsLoop c crd ns rest
    else servedVersionsLoop c crd ns rest

/-- K8sManager.get_objects: mapped kinds go through the typed list call
(errors surface as K8sManagerError text); every other kind goes through
the CRD fallback, in which all exceptions are swallowed and every
unresolved case returns the empty list. -/
def get_objects (c : Cluster) (ns : String) (object_type : String) :
    Except String (List String) :=
  if mapped_kinds.contains object_type then
    match c.listBuiltin object_type ns with
    | .ok names => .ok (sortStrings names)
    | .error e =>
      .error ("Failed to fetch " ++ object_type ++ " in " ++ ns ++ ": " ++ e)
  else
    match c.crds with
    | .error _ => .ok []
    | .ok crds =>
      match findCrd crds object_type with
      | none => .ok []
      | some crd =>
        if crd.versions.isEmpty then
          match crd.legacyVersion with
          | some ver =>
            match c.listCustom crd.group ver ns crd.plural with
            | .ok names => .ok (sortStrings (names.filter (fun n => !n.isEmpty)))
            | .error _ => .ok []
          | none => .ok []
        else
          .ok (servedVersionsLoop c crd ns crd.versions)

/-- A list is a prefix of itself extended by anything. -/
theorem isPrefixList_append (n ys : List Char) : isPrefixList n (n ++ ys) = true := by
  induction n with
  | nil => rfl
  | cons a as ih => simp [isPrefixList, ih]

/-- Substring containment holds when the needle starts the haystack. -/
theorem containsSub_append_self (n ys : List Char) :
    containsSub n (n ++ ys) = true := by
  cases n with
  | nil =>
    cases ys with
    | nil => rfl
    | cons c t => simp [containsSub, isPrefixList]
  | cons a as => simp [containsSub, isPrefixList, isPrefixList_append]

/-- Substring containment is preserved under extending the haystack on
the left. -/
theorem containsSub_append_left (xs n rest : List Char)
    (h : containsSub n rest = true) : containsSub n (xs ++ rest) = true := by
  induction xs with
  | nil => simpa using h
  | cons c t ih => simp [containsSub, ih]

/-- A string occurs as a substring of any string that has it in the
middle. -/
theorem strContains_triple (a n b : String) : strContains n (a ++ n ++ b) = true := by
  unfold strContains
  have hd : (a ++ n ++ b).data = a.data ++ (n.data ++ b.data) := by
    rw [String.data_append, String.data_append, List.append_assoc]
  rw [hd]
  exact containsSub_append_left a.data _ _ (containsSub_append_self n.data b.data)

/-- A string occurs as a substring of any string that ends with it. -/
theorem strContains_suffix_append (a n : String) : strContains n (a ++ n) = true := by
  unfold strContains
  rw [String.data_append]
  refine containsSub_append_left a.data _ _ ?_
  have h := containsSub_append_self n.data []
  simpa using h

/-- A string occurs as a substring of any string that starts with it. -/
theorem strContains_left (n b : String) : strContains n (n ++ b) = true := by
  unfold strContains
  rw [String.data_append]
  exact containsSub_append_self n.data b.data

/-- Sorted insertion keeps the list a permutation of consing the element. -/
theorem insertSorted_perm (x : String) (l : List String) :
    (insertSorted x l).Perm (x :: l) := by
  induction l with
  | nil => exact List.Perm.refl [x]
  | cons y ys ih =>
    rw [insertSorted]
    by_cases hxy : x ≤ y
    · rw [if_pos hxy]
    · rw [if_neg hxy]
      exact (ih.cons y).trans (List.Perm.swap x y ys)

/-- Sorted insertion preserves sortedness. -/
theorem sorted_insertSorted (x : String) (l : List String)
    (h : l.Sorted (· ≤ ·)) : (insertSorted x l).Sorted (· ≤ ·) := by
  induction l with
  | nil => simp [insertSorted]
  | cons y ys ih =>
    rcases List.sorted_cons.mp h with ⟨hy, hys⟩
    rw [insertSorted]
    by_cases hxy : x ≤ y
    · rw [if_pos hxy]
      refine List.sorted_cons.mpr ⟨?_, h⟩
      intro b hb
      rcases List.mem_cons.mp hb with rfl | hb2
      · exact hxy
      · exact le_trans hxy (hy b hb2)
    · rw [if_neg hxy]
      refine List.sorted_cons.mpr ⟨?_, ih hys⟩
      intro b hb
      rcases List.mem_cons.mp ((insertSorted_perm x ys).mem_iff.mp hb) with rfl | hb3
      · exact le_of_not_le hxy
      · exact hy b hb3

/-- sortStrings permutes its input. -/
theorem sortStrings_perm (l : List String) : (sortStrings l).Perm l := by
  induction l with
  | nil => exact List.Perm.refl []
  | cons x xs ih =>
    rw [sortStrings]
    exact (insertSorted_perm x (sortStrings xs)).trans (ih.cons x)

/-- sortStrings sorts ascending. -/
theorem sorted_sortStrings (l : List String) : (sortStrings l).Sorted (· ≤ ·) := by
  induction l with
  | nil => simp [sortStrings]
  | cons x xs ih =>
    rw [sortStrings]
    exact sorted_insertSorted x _ ih

/-- When the filtered flag implies a stored term, the set_items filter
recomputation agrees with filtering exactly when the flag is set. -/
theorem computeFiltered_eq (c : Column)
    (h1 : c.is_filtered = true → c.filter_term.isEmpty = false)
    (new_items : List String) :
    c.computeFiltered new_items =
      (if c.is_filtered then applyFilterTerm c.filter_term new_items else new_items) := by
  unfold Column.computeFiltered
  cases hf : c.is_filtered with
  | false => simp
  | true => simp [h1 hf]

/-- set_items stores the new item list unchanged. -/
theorem set_items_items (c : Column) (l : List String) : (c.set_items l).items = l := by
  unfold Column.set_items
  split <;> rfl

/-- set_items leaves the filtered flag unchanged. -/
theorem set_items_is_filtered (c : Column) (l : List String) :
    (c.set_items l).is_filtered = c.is_filtered := by
  unfold Column.set_items
  split <;> rfl

/-- set_items leaves the stored filter term unchanged. -/
theorem set_items_filter_term (c : Column) (l : List String) :
    (c.set_items l).filter_term = c.filter_term := by
  unfold Column.set_items
  split <;> rfl

/-- set_items clears the loading flag. -/
theorem set_items_is_loading (c : Column) (l : List String) :
    (c.set_items l).is_loading = false := by
  unfold Column.set_items
  split <;> rfl

/-- The filtered items after set_items are the recomputed filter result. -/
theorem set_items_filtered (c : Column) (l : List String) :
    (c.set_items l).filtered_items = c.computeFiltered l := by
  unfold Column.set_items
  split <;> simp_all

/-- The cursor after set_items: start of the list when the filtered items
are non-empty, cleared otherwise. -/
theorem set_items_highlighted (c : Column) (l : List String) :
    (c.set_items l).highlighted =
      (if c.computeFiltered l = [] then none else some 0) := by
  unfold Column.set_items
  split <;> simp_all

/-- Calling set_items with an empty list always shows the empty state. -/
theorem set_items_nil_display (c : Column) :
    (c.set_items []).display = ["No items"] ∧ (c.set_items []).disabled = true := by
  have hcf : c.computeFiltered [] = [] := by
    unfold Column.computeFiltered applyFilterTerm
    split <;> rfl
  unfold Column.set_items
  split <;> simp_all

/-- The invariant maintained by a column under set_items and the filter
operations: an active filter has a non-empty stored term, the filtered
items are exactly the filter of the stored items (all of them with no
active filter), and the cursor points at index zero exactly when the
filtered items are non-empty. -/
def ColumnInv (c : Column) : Prop :=
  (c.is_filtered = true → c.filter_term.isEmpty = false)
  ∧ c.filtered_items =
      (if c.is_filtered then applyFilterTerm c.filter_term c.items else c.items)
  ∧ (c.filtered_items = [] → c.highlighted = none)
  ∧ (c.filtered_items ≠ [] → c.highlighted = some 0)

/-- The invariant holds of a freshly constructed column. -/
theorem colInv_init : ColumnInv Column.init := by
  refine ⟨by simp [Column.init], by simp [Column.init], by simp [Column.init], ?_⟩
  intro h
  exact absurd rfl h

/-- set_items preserves the column invariant. -/
theorem colInv_set_items (c : Column) (h : ColumnInv c) (l : List String) :
    ColumnInv (c.set_items l) := by
  obtain ⟨h1, _, _, _⟩ := h
  have hfe := computeFiltered_eq c h1 l
  refine ⟨?_, ?_, ?_, ?_⟩
  · rw [set_items_is_filtered, set_items_filter_term]
    exact h1
  · rw [set_items_filtered, set_items_is_filtered, set_items_filter_term,
      set_items_items]
    exact hfe
  · intro hnil
    rw [set_items_filtered] at hnil
    rw [set_items_highlighted, if_pos hnil]
  · intro hne
    rw [set_items_filtered] at hne
    rw [set_items_highlighted, if_neg hne]

/-- _update_list establishes the cursor part of the invariant, given the
bookkeeping parts. -/
theorem colInv_updateList (c : Column)
    (h1 : c.is_filtered = true → c.filter_term.isEmpty = false)
    (h2 : c.filtered_items =
      (if c.is_filtered then applyFilterTerm c.filter_term c.items else c.items)) :
    ColumnInv c.updateList := by
  unfold Column.updateList
  split
  · next heq => exact ⟨h1, by simpa [heq] using h2, fun _ => rfl, fun hne => absurd heq hne⟩
  · next x xs heq =>
    exact ⟨h1, by simpa [heq] using h2, fun hnil => by simp [heq] at hnil, fun _ => rfl⟩

/-- on_input_submitted preserves the column invariant. -/
theorem colInv_on_input_submitted (c : Column) (h : ColumnInv c) (v : String) :
    ColumnInv (c.on_input_submitted v) := by
  unfold Column.on_input_submitted
  cases hv : (strToLower v).isEmpty with
  | true =>
    rw [if_pos hv]
    exact colInv_updateList _ (by simp) (by simp)
  | false =>
    rw [if_neg (by simp [hv])]
    exact colInv_updateList _ (by simpa using hv) (by simp)

/-- action_toggle_search preserves the column invariant. -/
theorem colInv_action_toggle_search (c : Column) (h : ColumnInv c) :
    ColumnInv c.action_toggle_search := by
  obtain ⟨h1, h2, h3, h4⟩ := h
  unfold Column.action_toggle_search
  cases hs : c.search_active with
  | true =>
    rw [if_pos rfl]
    exact colInv_updateList _ (by simp) (by simp)
  | false =>
    rw [if_neg (by simp)]
    exact ⟨h1, h2, h3, h4⟩

/-- The escape key handler preserves the column invariant. -/
theorem colInv_escape_key (c : Column) (h : ColumnInv c) :
    ColumnInv c.escape_key := by
  obtain ⟨h1, h2, h3, h4⟩ := h
  unfold Column.escape_key
  cases hs : c.search_active with
  | true =>
    rw [if_pos rfl]
    exact colInv_updateList _ (by simp) (by simp)
  | false =>
    rw [if_neg (by simp)]
    exact ⟨h1, h2, h3, h4⟩

/-- Any sequence of set_items and filter operations preserves the column
invariant from any state satisfying it. -/
theorem colInv_foldl (ops : List ColOp) (c : Column) (hc : ColumnInv c)
    (h : ∀ op ∈ ops, op.isFilterOp = true) :
    ColumnInv (ops.foldl (fun c op => op.apply c) c) := by
  induction ops generalizing c with
  | nil => simpa using hc
  | cons op rest ih =>
    rw [List.foldl_cons]
    refine ih _ ?_ (fun o ho => h o (List.mem_cons_of_mem _ ho))
    have hop := h op (List.mem_cons_self op rest)
    cases op with
    | setItems l => exact colInv_set_items c hc l
    | submitFilter v =>
      show ColumnInv (if c.search_active then c.on_input_submitted v else c)
      split
      · exact colInv_on_input_submitted c hc v
      · exact hc
    | toggleSearch => exact colInv_action_toggle_search c hc
    | escapeKey => exact colInv_escape_key c hc
    | setLoading b => simp [ColOp.isFilterOp] at hop
    | cursorDown => simp [ColOp.isFilterOp] at hop

/-- Whenever the option list of a column is disabled, the only displayed
row is one of the two placeholders. -/
def DisabledInv (c : Column) : Prop :=
  c.disabled = true → (c.display = ["Loading data..."] ∨ c.display = ["No items"])

/-- The disabled-placeholder invariant holds initially. -/
theorem disabledInv_init : DisabledInv Column.init := by
  intro h
  simp [Column.init] at h

/-- Every column operation preserves the disabled-placeholder invariant. -/
theorem disabledInv_apply (c : Column) (h : DisabledInv c) (op : ColOp) :
    DisabledInv (op.apply c) := by
  have hupd : ∀ d : Column, DisabledInv d.updateList := by
    intro d
    unfold Column.updateList
    split
    · intro _; exact Or.inr rfl
    · intro hd; simp at hd
  cases op with
  | setItems l =>
    show DisabledInv (c.set_items l)
    unfold Column.set_items
    split
    · intro _; exact Or.inr rfl
    · intro hd; simp at hd
  | submitFilter v =>
    show DisabledInv (if c.search_active then c.on_input_submitted v else c)
    split
    · simp only [Column.on_input_submitted]
      split
      · exact hupd _
      · exact hupd _
    · exact h
  | toggleSearch =>
    show DisabledInv c.action_toggle_search
    unfold Column.action_toggle_search
    split
    · exact hupd _
    · exact h
  | escapeKey =>
    show DisabledInv c.escape_key
    unfold Column.escape_key
    split
    · exact hupd _
    · exact h
  | setLoading b =>
    show DisabledInv (c.set_loading b)
    unfold Column.set_loading
    split
    · intro _; exact Or.inl rfl
    · intro hd; simp at hd
  | cursorDown =>
    show DisabledInv c.cursor_down
    unfold Column.cursor_down
    split
    · split
      · exact h
      · exact h
    · split
      · exact h
      · exact h

/-- The disabled-placeholder invariant holds of every reachable column. -/
theorem disabledInv_runOps (ops : List ColOp) : DisabledInv (runOps ops) := by
  have hgen : ∀ c : Column, DisabledInv c →
      DisabledInv (ops.foldl (fun c op => op.apply c) c) := by
    induction ops with
    | nil => intro c hc; simpa using hc
    | cons op rest ih =>
      intro c hc
      rw [List.foldl_cons]
      exact ih _ (disabledInv_apply c hc op)
  exact hgen Column.init disabledInv_init

/-- Recomputing the filter over an empty item list yields the empty list. -/
theorem computeFiltered_nil (c : Column) : c.computeFiltered [] = [] := by
  unfold Column.computeFiltered applyFilterTerm
  split <;> rfl

/-- Claim C2: for every sequence of set_items and filter operations on a
list panel, the visible items (filtered_items) are exactly the
subsequence of the latest all_items whose elements contain the current
filter term as a case-insensitive substring (all of all_items when no
filter is active, and re-filtered on every set_items call), the order of
all_items is preserved, and the cursor is inside the visible range when
the visible items are non-empty and cleared otherwise. -/
theorem c2_filter_panel_invariant (ops : List ColOp)
    (h : ∀ op ∈ ops, op.isFilterOp = true) :
    ((runOps ops).filtered_items =
      (if (runOps ops).is_filtered then
        applyFilterTerm (runOps ops).filter_term (runOps ops).items
       else (runOps ops).items))
    ∧ (runOps ops).filtered_items.Sublist (runOps ops).items
    ∧ (∀ it ∈ (runOps ops).filtered_items, (runOps ops).is_filtered = true →
        strContains (runOps ops).filter_term (strToLower it) = true)
    ∧ ((runOps ops).filtered_items = [] → (runOps ops).highlighted = none)
    ∧ ((runOps ops).filtered_items ≠ [] →
        ∃ i, (runOps ops).highlighted = some i
          ∧ i < (runOps ops).filtered_items.length) := by
  unfold runOps
  obtain ⟨h1, h2, h3, h4⟩ := colInv_foldl ops Column.init colInv_init h
  refine ⟨h2, ?_, ?_, h3, ?_⟩
  · rw [h2]
    split
    · exact List.filter_sublist _
    · exact List.Sublist.refl _
  · intro it hit hf
    rw [h2] at hit
    rw [hf] at hit
    simp only [if_true] at hit
    exact (List.mem_filter.mp hit).2
  · intro hne
    exact ⟨0, h4 hne, List.length_pos.mpr hne⟩

/-- Witness for claim C2 at a concrete operation sequence. -/
theorem c2_filter_panel_invariant_witness :
    (runOps [ColOp.setItems ["a1", "a2", "b1"], ColOp.toggleSearch,
      ColOp.submitFilter "a", ColOp.setItems ["a3", "b2"]]).filtered_items.Sublist
      (runOps [ColOp.setItems ["a1", "a2", "b1"], ColOp.toggleSearch,
        ColOp.submitFilter "a", ColOp.setItems ["a3", "b2"]]).items :=
  (c2_filter_panel_invariant
    [ColOp.setItems ["a1", "a2", "b1"], ColOp.toggleSearch,
      ColOp.submitFilter "a", ColOp.setItems ["a3", "b2"]] (by decide)).2.1

/-- Claim C4 (counterexample): after set_items schedules the synthesized
selection on items a, b, replacing the content with the different
non-empty list c, d before the callback fires does not make it no-op:
evaluated on the changed state it still posts a selection (for the new
first item), refuting that a late synthesized selection no-ops when the
content has changed identity. -/
theorem c4_counterexample :
    (Column.init.set_items_posts ["a", "b"] = true)
    ∧ (((Column.init.set_items ["a", "b"]).set_items ["c", "d"]).filtered_items ≠
        (Column.init.set_items ["a", "b"]).filtered_items)
    ∧ (((Column.init.set_items ["a", "b"]).set_items ["c", "d"]).post_selection =
        some "c") := by
  exact ⟨by decide, by decide, by decide⟩

/-- Claim C4 (amended): whenever set_items yields non-empty visible
items it schedules a synthesized selection for the first visible item;
the deferred callback reads the panel state at fire time: when the
visible items are still non-empty, the list enabled and a highlight
present, it posts the head of the current visible items, and it no-ops
exactly in the remaining cases (visible items emptied, list disabled,
or highlight cleared); it never posts an item other than the current
head. -/
theorem c4_auto_cascade (c : Column) (new_items : List String) (d : Column) :
    (c.set_items_posts new_items = !(c.set_items new_items).filtered_items.isEmpty)
    ∧ (d.filtered_items ≠ [] → d.disabled = false → d.highlighted.isSome = true →
        d.post_selection = d.filtered_items.head?)
    ∧ (d.filtered_items = [] → d.post_selection = none)
    ∧ (d.disabled = true → d.post_selection = none)
    ∧ (d.highlighted = none → d.post_selection = none)
    ∧ (∀ x, d.post_selection = some x → d.filtered_items.head? = some x) := by
  refine ⟨?_, ?_, ?_, ?_, ?_, ?_⟩
  · rw [Column.set_items_posts, set_items_filtered]
  · intro hne hd hh
    unfold Column.post_selection
    split
    · next heq => exact absurd heq hne
    · next y ys heq =>
      rw [heq]
      simp [hd, hh]
  · intro hnil
    simp [Column.post_selection, hnil]
  · intro hd
    unfold Column.post_selection
    split
    · rfl
    · rw [hd]
      simp
  · intro hh
    unfold Column.post_selection
    split
    · rfl
    · rw [hh]
      simp
  · intro x hx
    unfold Column.post_selection at hx
    split at hx
    · simp at hx
    · next y ys heq =>
      split at hx
      · have hyx : y = x := by simpa using hx
        rw [heq, hyx]
        rfl
      · simp at hx

/-- Witness for claim C4 at concrete inputs, exercising the firing
direction on a freshly populated column. -/
theorem c4_auto_cascade_witness :
    (Column.init.set_items ["a"]).post_selection =
      (Column.init.set_items ["a"]).filtered_items.head? :=
  (c4_auto_cascade Column.init ["a"] (Column.init.set_items ["a"])).2.1
    (by decide) (by decide) (by decide)

/-- Claim C8 (counterexample): submitting a column filter while the
column is in the loading state re-enables the option list without
clearing the loading flag; a subsequent highlight event on a real item
is then posted even though the panel is still loading, refuting the
claim for the loading disjunct. -/
theorem c8_counterexample :
    ((runOps [ColOp.setItems ["a"], ColOp.toggleSearch, ColOp.setLoading true,
      ColOp.submitFilter ""]).is_loading = true)
    ∧ ("a" ∈ (runOps [ColOp.setItems ["a"], ColOp.toggleSearch, ColOp.setLoading true,
      ColOp.submitFilter ""]).display)
    ∧ ((runOps [ColOp.setItems ["a"], ColOp.toggleSearch, ColOp.setLoading true,
      ColOp.submitFilter ""]).on_highlighted_event "a" = some "a") := by
  exact ⟨by decide, by decide, by decide⟩

/-- Claim C8 (amended): placeholder rows are never emitted as a
selection event: for every reachable column and every event whose item
is among the displayed options, if the option list is disabled or the
item is a placeholder row, neither the selection handler nor the
highlight handler posts a Selected message. -/
theorem c8_placeholder_events (ops : List ColOp) (prompt : String)
    (hmem : prompt ∈ (runOps ops).display)
    (hcond : (runOps ops).disabled = true
      ∨ prompt = "Loading data..." ∨ prompt = "No items") :
    (runOps ops).on_selected_event prompt = none
    ∧ (runOps ops).on_highlighted_event prompt = none := by
  have hph : prompt = "Loading data..." ∨ prompt = "No items" := by
    rcases hcond with hd | hp
    · rcases disabledInv_runOps ops hd with hdisp | hdisp
      · rw [hdisp] at hmem
        exact Or.inl (by simpa using hmem)
      · rw [hdisp] at hmem
        exact Or.inr (by simpa using hmem)
    · exact hp
  constructor
  · unfold Column.on_selected_event
    rw [if_pos hph]
  · unfold Column.on_highlighted_event
    by_cases hd : (runOps ops).disabled = true
    · rw [if_pos hd]
    · rw [if_neg hd, if_pos hph]

/-- Witness for claim C8 at a concrete loading column. -/
theorem c8_placeholder_events_witness :
    (runOps [ColOp.setLoading true]).on_selected_event "Loading data..." = none
    ∧ (runOps [ColOp.setLoading true]).on_highlighted_event "Loading data..." = none :=
  c8_placeholder_events [ColOp.setLoading true] "Loading data..."
    (by decide) (Or.inl (by decide))

/-- Claim C1 (counterexample): select namespace ns1 then ns2, let the
ns2 type-list fetch resolve first with result A, then let the stale ns1
fetch resolve with result B: the stale result is not discarded, the
handler overwrites the Type panel with B although the current namespace
is ns2, refuting that stale results leave panel state unmutated. -/
theorem c1_counterexample :
    ((onObjectTypesLoaded (selectNamespace (selectNamespace AppState.init "ns1") "ns2")
        "ns2" ["A"]).current_namespace = some "ns2")
    ∧ ((onObjectTypesLoaded (selectNamespace (selectNamespace AppState.init "ns1") "ns2")
        "ns2" ["A"]).col_types.items = ["A"])
    ∧ ((onObjectTypesLoaded (onObjectTypesLoaded
        (selectNamespace (selectNamespace AppState.init "ns1") "ns2") "ns2" ["A"])
        "ns1" ["B"]).col_types.items = ["B"])
    ∧ ((onObjectTypesLoaded (onObjectTypesLoaded
        (selectNamespace (selectNamespace AppState.init "ns1") "ns2") "ns2" ["A"])
        "ns1" ["B"]).current_namespace = some "ns2") := by
  exact ⟨by decide, by decide, by decide, by decide⟩

/-- Claim C1 (amended): the fetch-completion handlers perform no
relevance check: the arrived type list is always applied to the Type
panel and the arrived object list to the Object panel, whatever the
originating namespace or type, and the current namespace is never
consulted. With no startup initial type, the type-list handler changes
nothing besides the Type panel; with a startup initial type present in
the arrived list it additionally re-selects that type and spawns an
object-list fetch on every completion (and behaves like the plain case
when the type is absent); the object-list handler changes nothing
besides the Object panel. -/
theorem c1_no_relevance_check (st : AppState) (ns ns2 ty : String)
    (object_types objects : List String) :
    ((onObjectTypesLoaded st ns object_types).col_types.items = object_types)
    ∧ ((onObjectTypesLoaded st ns object_types).current_namespace =
        st.current_namespace)
    ∧ (st.initial_type = none →
        onObjectTypesLoaded st ns object_types =
          { st with col_types := st.col_types.set_items object_types })
    ∧ (∀ ty0, st.initial_type = some ty0 → object_types.contains ty0 = true →
        ((onObjectTypesLoaded st ns object_types).current_object_type = some ty0
         ∧ (onObjectTypesLoaded st ns object_types).pending =
             st.pending ++ [Fetch.fetchObjectsInit ns ty0]
         ∧ (onObjectTypesLoaded st ns object_types).col_objects =
             st.col_objects.set_loading true))
    ∧ (∀ ty0, st.initial_type = some ty0 → object_types.contains ty0 = false →
        onObjectTypesLoaded st ns object_types =
          { st with col_types := st.col_types.set_items object_types })
    ∧ ((onObjectsLoaded st ns2 ty objects).col_objects =
        st.col_objects.set_items objects)
    ∧ ((onObjectsLoaded st ns2 ty objects).current_namespace = st.current_namespace)
    ∧ ((onObjectsLoaded st ns2 ty objects).current_object_type =
        st.current_object_type)
    ∧ ((onObjectsLoaded st ns2 ty objects).pending = st.pending) := by
  refine ⟨?_, ?_, ?_, ?_, ?_, rfl, rfl, rfl, rfl⟩
  · cases hi : st.initial_type with
    | none =>
      simp only [onObjectTypesLoaded, hi]
      exact set_items_items _ _
    | some ty0 =>
      by_cases hc : object_types.contains ty0 = true
      · simp only [onObjectTypesLoaded, hi]
        rw [if_pos hc]
        exact set_items_items _ _
      · simp only [onObjectTypesLoaded, hi]
        rw [if_neg hc]
        exact set_items_items _ _
  · cases hi : st.initial_type with
    | none => simp only [onObjectTypesLoaded, hi]
    | some ty0 =>
      by_cases hc : object_types.contains ty0 = true
      · simp only [onObjectTypesLoaded, hi]
        rw [if_pos hc]
      · simp only [onObjectTypesLoaded, hi]
        rw [if_neg hc]
  · intro hi
    simp only [onObjectTypesLoaded, hi]
  · intro ty0 hi hc
    simp only [onObjectTypesLoaded, hi]
    rw [if_pos hc]
    exact ⟨rfl, rfl, rfl⟩
  · intro ty0 hi hc
    simp only [onObjectTypesLoaded, hi]
    rw [if_neg (by simpa using hc)]

/-- Witness for claim C1 at a concrete state. -/
theorem c1_no_relevance_check_witness :
    (onObjectTypesLoaded AppState.init "ns1" ["A"]).col_types.items = ["A"] :=
  (c1_no_relevance_check AppState.init "ns1" "x" "y" ["A"] []).1

/-- Claim C3 (counterexample): after browsing to pod p1 the stored
object name (current_pod_name) is p1; selecting a new namespace ns2
does not clear it, refuting the object_name part of the claim. -/
theorem c3_counterexample :
    ((selectObject (selectType (selectNamespace AppState.init "ns1") "Pods")
        "p1").current_pod_name = some "p1")
    ∧ ((selectNamespace (selectObject (selectType
        (selectNamespace AppState.init "ns1") "Pods") "p1")
        "ns2").current_pod_name = some "p1") := by
  exact ⟨by decide, by decide⟩

/-- Claim C3 (amended): a namespace selection event sets the namespace,
clears object_type and the describe cache, resets the detail mode to
Describe, clears the Object panel immediately (empty state shown while
the type-list fetch is still pending), but leaves the stored object
name (current_pod_name) unchanged. -/
theorem c3_namespace_selection (st : AppState) (item : String) :
    ((selectNamespace st item).current_namespace = some item)
    ∧ ((selectNamespace st item).current_object_type = none)
    ∧ ((selectNamespace st item).describe_content = none)
    ∧ ((selectNamespace st item).current_view = View.describe)
    ∧ ((selectNamespace st item).col_objects = st.col_objects.set_items [])
    ∧ ((selectNamespace st item).col_objects.display = ["No items"])
    ∧ ((selectNamespace st item).col_objects.disabled = true)
    ∧ ((selectNamespace st item).col_types.is_loading = true)
    ∧ ((selectNamespace st item).current_pod_name = st.current_pod_name)
    ∧ ((selectNamespace st item).pending = st.pending ++ [Fetch.fetchTypes item]) := by
  refine ⟨rfl, rfl, rfl, rfl, rfl, ?_, ?_, ?_, rfl, rfl⟩
  · exact (set_items_nil_display st.col_objects).1
  · exact (set_items_nil_display st.col_objects).2
  · rfl

/-- Witness for claim C3 at a concrete state. -/
theorem c3_namespace_selection_witness :
    (selectNamespace AppState.init "ns1").current_namespace = some "ns1" :=
  (c3_namespace_selection AppState.init "ns1").1

/-- Claim C5: when the object-list fetch of a selected kind returns the
empty list, the detail panel message names the kind and the current
namespace, the Object panel shows its disabled empty state, no fetch is
spawned, and the empty set_items schedules no synthesized selection, so
no describe fetch can follow. -/
theorem c5_empty_object_list (st : AppState) (object_type : String) :
    (strContains object_type
      (onObjectsLoadedFromSelection st object_type []).detail_content = true)
    ∧ (strContains (optStr st.current_namespace)
      (onObjectsLoadedFromSelection st object_type []).detail_content = true)
    ∧ ((onObjectsLoadedFromSelection st object_type []).col_objects.display =
        ["No items"])
    ∧ ((onObjectsLoadedFromSelection st object_type []).col_objects.disabled = true)
    ∧ ((onObjectsLoadedFromSelection st object_type []).pending = st.pending)
    ∧ (st.col_objects.set_items_posts [] = false) := by
  refine ⟨?_, ?_, ?_, ?_, rfl, ?_⟩
  · show strContains object_type
      ("No " ++ object_type ++ " found in namespace: "
        ++ optStr st.current_namespace) = true
    rw [String.append_assoc ("No " ++ object_type)]
    exact strContains_triple "No " object_type _
  · exact strContains_suffix_append _ _
  · exact (set_items_nil_display st.col_objects).1
  · exact (set_items_nil_display st.col_objects).2
  · rw [Column.set_items_posts, computeFiltered_nil]
    rfl

/-- Witness for claim C5 at a concrete state. -/
theorem c5_empty_object_list_witness :
    (onObjectsLoadedFromSelection (selectNamespace AppState.init "ns1") "Pods"
      []).col_objects.display = ["No items"] :=
  (c5_empty_object_list (selectNamespace AppState.init "ns1") "Pods").2.2.1

/-- Claim C6: a describe fetch failure leaves the whole Selection
Context and all three panels untouched and only replaces the detail
panel content with an error message containing both the kind and the
object name. -/
theorem c6_details_error_scoped (st : AppState) (object_type item : String) :
    ((onDetailsError st object_type item).current_namespace = st.current_namespace)
    ∧ ((onDetailsError st object_type item).current_object_type =
        st.current_object_type)
    ∧ ((onDetailsError st object_type item).current_pod_name = st.current_pod_name)
    ∧ ((onDetailsError st object_type item).describe_content = st.describe_content)
    ∧ ((onDetailsError st object_type item).col_ns = st.col_ns)
    ∧ ((onDetailsError st object_type item).col_types = st.col_types)
    ∧ ((onDetailsError st object_type item).col_objects = st.col_objects)
    ∧ (strContains object_type (onDetailsError st object_type item).detail_content =
        true)
    ∧ (strContains item (onDetailsError st object_type item).detail_content = true) := by
  refine ⟨rfl, rfl, rfl, rfl, rfl, rfl, rfl, ?_, ?_⟩
  · show strContains object_type
      ("Error loading details for " ++ object_type ++ "/" ++ item) = true
    rw [String.append_assoc ("Error loading details for " ++ object_type)]
    exact strContains_triple "Error loading details for " object_type _
  · exact strContains_suffix_append _ _

/-- Witness for claim C6 at a concrete state. -/
theorem c6_details_error_scoped_witness :
    strContains "Pods" (onDetailsError AppState.init "Pods" "p1").detail_content =
      true :=
  (c6_details_error_scoped AppState.init "Pods" "p1").2.2.2.2.2.2.2.1

/-- Claim C7 (counterexample): browse namespace ns1, kind Pods, objects
a and b, move the cursor to b, refresh, and let the refresh return the
same list: although b is still present, the cursor is reset to the first
item instead of being preserved by value, refuting the
cursor-preservation part of the claim. -/
theorem c7_counterexample :
    ((action_focus_down_on_objects (onObjectsLoadedFromSelection
        (selectType (onObjectTypesLoaded (selectNamespace AppState.init "ns1")
          "ns1" ["Pods"]) "Pods") "Pods" ["a", "b"])).col_objects.highlighted = some 1)
    ∧ ((action_focus_down_on_objects (onObjectsLoadedFromSelection
        (selectType (onObjectTypesLoaded (selectNamespace AppState.init "ns1")
          "ns1" ["Pods"]) "Pods") "Pods" ["a", "b"])).col_objects.filtered_items =
        ["a", "b"])
    ∧ ((action_refresh (action_focus_down_on_objects (onObjectsLoadedFromSelection
        (selectType (onObjectTypesLoaded (selectNamespace AppState.init "ns1")
          "ns1" ["Pods"]) "Pods") "Pods" ["a", "b"]))).pending.getLast? =
        some (Fetch.refreshObjects "ns1" "Pods"))
    ∧ ((onObjectsRefreshed (action_refresh (action_focus_down_on_objects
        (onObjectsLoadedFromSelection (selectType (onObjectTypesLoaded
          (selectNamespace AppState.init "ns1") "ns1" ["Pods"]) "Pods") "Pods"
          ["a", "b"]))) ["a", "b"]).col_objects.highlighted = some 0)
    ∧ ("b" ∈ (onObjectsRefreshed (action_refresh (action_focus_down_on_objects
        (onObjectsLoadedFromSelection (selectType (onObjectTypesLoaded
          (selectNamespace AppState.init "ns1") "ns1" ["Pods"]) "Pods") "Pods"
          ["a", "b"]))) ["a", "b"]).col_objects.filtered_items) := by
  exact ⟨by decide, by decide, by decide, by decide, by decide⟩

/-- Claim C7 (amended): refresh re-issues the fetch for the deepest
currently-selected level, putting only that panel into loading, and the
completion replaces that panel's items in place with the stored filter
re-applied; the cursor is not preserved by value: it always resets to
the first visible item (auto-cascade-first) or is cleared when the
refreshed visible list is empty. -/
theorem c7_refresh_behaviour (st : AppState) (objects : List String) :
    (optTruthy st.current_namespace = true →
      optTruthy st.current_object_type = true →
      ((action_refresh st).pending = st.pending ++
        [Fetch.refreshObjects (optStr st.current_namespace)
          (optStr st.current_object_type)]
       ∧ (action_refresh st).col_objects.is_loading = true
       ∧ (action_refresh st).col_ns = st.col_ns
       ∧ (action_refresh st).col_types = st.col_types))
    ∧ (optTruthy st.current_namespace = true →
      optTruthy st.current_object_type = false →
      ((action_refresh st).pending = st.pending ++
        [Fetch.refreshTypes (optStr st.current_namespace)]
       ∧ (action_refresh st).col_types.is_loading = true
       ∧ (action_refresh st).col_ns = st.col_ns
       ∧ (action_refresh st).col_objects = st.col_objects))
    ∧ (optTruthy st.current_namespace = false →
      ((action_refresh st).pending = st.pending ++ [Fetch.refreshNamespaces]
       ∧ (action_refresh st).col_ns.is_loading = true
       ∧ (action_refresh st).col_types = st.col_types
       ∧ (action_refresh st).col_objects = st.col_objects))
    ∧ ((onObjectsRefreshed st objects).col_objects.items = objects)
    ∧ ((onObjectsRefreshed st objects).col_objects.is_filtered =
        st.col_objects.is_filtered)
    ∧ ((onObjectsRefreshed st objects).col_objects.filter_term =
        st.col_objects.filter_term)
    ∧ ((onObjectsRefreshed st objects).col_objects.filtered_items =
        st.col_objects.computeFiltered objects)
    ∧ ((onObjectsRefreshed st objects).col_objects.highlighted =
        (if st.col_objects.computeFiltered objects = [] then none else some 0)) := by
  refine ⟨?_, ?_, ?_, ?_, ?_, ?_, ?_, ?_⟩
  · intro h1 h2
    unfold action_refresh
    rw [h1, h2]
    exact ⟨rfl, rfl, rfl, rfl⟩
  · intro h1 h2
    unfold action_refresh
    rw [h1, h2]
    exact ⟨rfl, rfl, rfl, rfl⟩
  · intro h1
    unfold action_refresh
    rw [h1]
    exact ⟨rfl, rfl, rfl, rfl⟩
  · exact set_items_items _ _
  · exact set_items_is_filtered _ _
  · exact set_items_filter_term _ _
  · exact set_items_filtered _ _
  · exact set_items_highlighted _ _

/-- Witness for claim C7 at a concrete state. -/
theorem c7_refresh_behaviour_witness :
    (action_refresh (selectNamespace AppState.init "ns1")).pending =
      (selectNamespace AppState.init "ns1").pending ++ [Fetch.refreshTypes "ns1"] :=
  ((c7_refresh_behaviour (selectNamespace AppState.init "ns1") []).2.1
    (by decide) (by decide)).1

/-- Claim C9: listing objects of a kind that is neither in the built-in
type mapping nor the kind of any discovered custom resource definition
returns the empty list without raising, whatever the namespace (this
also covers a failing CRD listing, whose exception is swallowed). -/
theorem c9_unsupported_kind (c : Cluster) (ns kind : String)
    (h1 : mapped_kinds.contains kind = false)
    (h2 : ∀ crds, c.crds = Except.ok crds → ∀ crd ∈ crds, crd.kind ≠ some kind) :
    get_objects c ns kind = Except.ok [] := by
  unfold get_objects
  rw [if_neg (by simpa using h1)]
  cases hc : c.crds with
  | error e => rfl
  | ok crds =>
    have hf : findCrd crds kind = none := by
      unfold findCrd
      rw [List.find?_eq_none]
      intro crd hcrd
      simp [h2 crds hc crd hcrd]
    dsimp only
    rw [hf]

/-- Witness for claim C9 on a concrete cluster with no CRDs. -/
theorem c9_unsupported_kind_witness :
    get_objects
      { crds := Except.ok []
        listBuiltin := fun _ _ => Except.ok []
        listCustom := fun _ _ _ _ => Except.ok [] } "default" "Widgets" =
      Except.ok [] :=
  c9_unsupported_kind _ "default" "Widgets" (by decide)
    (fun crds hc => by
      cases hc
      intro crd hcrd
      exact absurd hcrd (List.not_mem_nil crd))

/-- Claim C10: get_object_types is total (no raising code path outside
the swallowed CRD try), always starts with the 18 fixed built-in kinds
in their fixed order, continues with exactly the discovered custom kinds
sorted ascending, collapses to exactly the built-in list when CRD
discovery fails, and is never empty. -/
theorem c10_object_types_shape (r : Except String (List CRD)) :
    ((get_object_types r).take 18 = standard_types)
    ∧ (standard_types.length = 18)
    ∧ (((get_object_types r).drop 18).Sorted (fun a b : String => a ≤ b))
    ∧ (((get_object_types r).drop 18).Perm (discovered_kinds r))
    ∧ (∀ e, get_object_types (Except.error e) = standard_types)
    ∧ (get_object_types r ≠ []) := by
  have h18 : standard_types.length = 18 := rfl
  refine ⟨?_, h18, ?_, ?_, ?_, ?_⟩
  · unfold get_object_types
    rw [← h18, List.take_left]
  · unfold get_object_types
    rw [← h18, List.drop_left]
    exact sorted_sortStrings _
  · unfold get_object_types
    rw [← h18, List.drop_left]
    exact sortStrings_perm _
  · intro e
    simp [get_object_types, discovered_kinds, sortStrings]
  · simp [get_object_types, standard_types]

/-- Witness for claim C10 on a concrete CRD listing outcome. -/
theorem c10_object_types_shape_witness :
    (get_object_types (Except.ok [])).take 18 = standard_types :=
  (c10_object_types_shape (Except.ok [])).1

end KTree
